import Mathlib

/-!
Shallow embedding of the vinput virtual-input-device registry (src/vinput.c).

The embedding models the three shared structures protected by `vinput_lock`
(the device-type list `vinput_devices`, the instance list `vinput_vdevices`,
and the id bitmap `vinput_ids`) as one explicit state record, and each C entry
point as a pure function on that state.  External collaborators that the core
only observes through success/failure (`input_allocate_device`, the provider's
`init`/`send`/`read` operations, `device_register`, `input_register_device`,
`copy_to_user`, `copy_from_user`) enter as explicit outcome parameters.
A NULL-pointer dereference in the C code is modelled as a distinct outcome
constructor rather than a value, since it is a crash, not a result.
-/

/-- Linux errno values used by vinput.c (from the kernel headers). -/
def EINVAL : Int := 22

/-- Linux errno value for a failed user-space copy. -/
def EFAULT : Int := 14

/-- Linux errno value returned through ERR_PTR for a missing device. -/
def ENODEV : Int := 19

/-- Linux errno value for a failed allocation. -/
def ENOMEM : Int := 12

/-- Linux errno value for an exhausted id space. -/
def ENOBUFS : Int := 105

/-- VINPUT_MINORS, the id-bitmap capacity (src/vinput.c line 15). -/
def VINPUT_MINORS : Nat := 32

/-- Modelled from the spec: VINPUT_MAX_LEN comes from the header vinput.h,
which is not part of the sources; the spec describes MAX_MESSAGE_LEN as a
small fixed constant and gives 8 bytes as the reference value.  None of the
claims depend on the particular value, only on the comparisons against it. -/
def VINPUT_MAX_LEN : Nat := 8

/-- A registered device-type provider (struct vinput_device): the name is the
lookup key; the ops table is represented by outcome parameters at call sites. -/
structure VinputDevice where
  name : List Char
deriving DecidableEq

/-- A live virtual-input instance (struct vinput): its allocated id and the
provider bound by export_store (vinput->type, NULL right after kzalloc). -/
structure Vinput where
  id : Nat
  type : Option VinputDevice
deriving DecidableEq

/-- Outcome of a C call that returns a value or an ERR_PTR/negative errno,
with a separate constructor for a NULL-pointer dereference (a kernel crash). -/
inductive CResult (α : Type) where
  | ok (a : α)
  | error (e : Int)
  | nullDeref
deriving DecidableEq

/-- The shared state protected by vinput_lock: the registered device types
(vinput_devices), the live instances (vinput_vdevices, most recent first since
list_add inserts at the head), and the id bitmap (vinput_ids). -/
structure VState where
  vinput_devices : List VinputDevice
  vinput_vdevices : List Vinput
  vinput_ids : Finset Nat
deriving DecidableEq

/-- C strncmp on NUL-free strings represented as character lists: compare at
most n characters, a string end acting as a terminating NUL. -/
def strncmp : List Char → List Char → Nat → Int
  | _, _, 0 => 0
  | [], [], _ + 1 => 0
  | [], _ :: _, _ + 1 => -1
  | _ :: _, [], _ + 1 => 1
  | a :: as, b :: bs, n + 1 =>
    if a = b then strncmp as bs n else if a < b then -1 else 1

/-- vinput_get_device_by_type (src/vinput.c lines 28-47): walk vinput_devices
and return the first entry whose name satisfies
strncmp(type, device->name, strlen(device->name)) == 0, else ERR_PTR(-ENODEV). -/
def vinput_get_device_by_type (devices : List VinputDevice) (ty : List Char) :
    CResult VinputDevice :=
  match devices.find? (fun device => strncmp ty device.name device.name.length == 0) with
  | some device => .ok device
  | none => .error (-ENODEV)

/-- The loop of vinput_get_vdevice_by_id (src/vinput.c lines 54-59): the cursor
starts NULL, is set to each entry in turn, and the loop breaks on the first id
match; afterwards the cursor holds the first match, or the last entry when
nothing matched, or NULL when the list was empty. -/
def vdevice_scan (id : Nat) : List Vinput → Option Vinput
  | [] => none
  | [v] => some v
  | v :: rest => if v.id = id then some v else vdevice_scan id rest

/-- vinput_get_vdevice_by_id (src/vinput.c lines 49-65): after the scan the
code evaluates vinput->id == id on the cursor; when the list was empty the
cursor is still NULL and this dereferences a NULL pointer. -/
def vinput_get_vdevice_by_id (vdevices : List Vinput) (id : Nat) : CResult Vinput :=
  match vdevice_scan id vdevices with
  | none => .nullDeref
  | some v => if v.id = id then .ok v else .error (-ENODEV)

/-- vinput_open (src/vinput.c lines 67-80): resolve the minor number through
vinput_get_vdevice_by_id; on success the instance is bound to the session
(file->private_data), on ERR_PTR the error is returned. -/
def vinput_open (vdevices : List Vinput) (minor : Nat) : CResult Vinput :=
  match vinput_get_vdevice_by_id vdevices minor with
  | .ok v => .ok v
  | .error e => .error e
  | .nullDeref => .nullDeref

/-- Result of vinput_read: the returned ssize_t, the updated *offset, and the
window [copyStart, copyStart + copyLen) of the staging buffer handed to
copy_to_user. -/
structure ReadOutcome where
  retval : Int
  newOffset : Int
  copyStart : Int
  copyLen : Int
deriving DecidableEq

/-- The successive reassignments of the local count in vinput_read
(src/vinput.c lines 96-99) before the copy: count is zeroed only when
*offset > len (strict), and clamped to len - *offset only when
count + *offset exceeds VINPUT_MAX_LEN. -/
def read_count1 (len count off : Int) : Int :=
  if off > len then 0
  else if count + off > (VINPUT_MAX_LEN : Int) then len - off
  else count

/-- vinput_read (src/vinput.c lines 87-107).  len is what the provider's read
op returned, count the caller's request, off the current *offset, copy_ok
whether copy_to_user succeeded.  After the clamping of read_count1 the window
[*offset, *offset + count) of the staging buffer is copied out, count becomes
-EFAULT when the copy fails, and the code always executes *offset += count
before returning count. -/
def vinput_read (len count off : Int) (copy_ok : Bool) : ReadOutcome :=
  { retval := if copy_ok then read_count1 len count off else -EFAULT
    newOffset := off + (if copy_ok then read_count1 len count off else -EFAULT)
    copyStart := off
    copyLen := read_count1 len count off }

/-- Result of vinput_write: the returned ssize_t, whether the provider's send
op was invoked, and the staging-buffer contents passed to it when it was. -/
structure WriteOutcome where
  retval : Int
  sendInvoked : Bool
  sentBuf : List Nat
deriving DecidableEq

/-- vinput_write (src/vinput.c lines 109-126).  data holds the user bytes,
count the caller's length, copy_ok whether copy_from_user succeeded, send_ret
the provider's send result.  Over-long writes fail with -EINVAL before the
copy; a failed copy fails with -EFAULT before send; otherwise the zeroed
staging buffer of VINPUT_MAX_LEN + 1 bytes, overlaid with the first count user
bytes, is handed to send and send's result is returned. -/
def vinput_write (data : List Nat) (count : Nat) (copy_ok : Bool) (send_ret : Int) :
    WriteOutcome :=
  if count > VINPUT_MAX_LEN then
    { retval := -EINVAL, sendInvoked := false, sentBuf := [] }
  else if copy_ok then
    { retval := send_ret, sendInvoked := true,
      sentBuf := data.take count ++ List.replicate (VINPUT_MAX_LEN + 1 - count) 0 }
  else
    { retval := -EFAULT, sendInvoked := false, sentBuf := [] }

/-- find_first_zero_bit on the vinput_ids bitmap: the lowest index below size
whose bit is clear, or size itself when every bit is set. -/
def find_first_zero_bit (ids : Finset Nat) (size : Nat) : Nat :=
  ((List.range size).find? (fun i => decide (i ∉ ids))).getD size

/-- vinput_destroy_vdevice (src/vinput.c lines 141-152): under vinput_lock,
unlink the instance from vinput_vdevices and clear its id bit, then free it. -/
def vinput_destroy_vdevice (st : VState) (v : Vinput) : VState :=
  { st with
    vinput_vdevices := st.vinput_vdevices.eraseP (fun x => x.id == v.id),
    vinput_ids := st.vinput_ids.erase v.id }

/-- vinput_alloc_vdevice (src/vinput.c lines 164-210).  input_alloc_ok tells
whether input_allocate_device succeeded.  On a free id the bit is set and the
fresh instance is prepended to vinput_vdevices under the lock; when the bitmap
is full the state is untouched and -ENOBUFS is returned; when
input_allocate_device fails, the fail_input_dev path unlinks the instance
(list_del of the node just prepended restores the previous list) but never
executes clear_bit, so the id bit stays set. -/
def vinput_alloc_vdevice (st : VState) (input_alloc_ok : Bool) :
    VState × CResult Vinput :=
  let id := find_first_zero_bit st.vinput_ids VINPUT_MINORS
  if VINPUT_MINORS ≤ id then
    (st, .error (-ENOBUFS))
  else
    let v : Vinput := { id := id, type := none }
    let st1 : VState :=
      { st with
        vinput_ids := insert id st.vinput_ids,
        vinput_vdevices := v :: st.vinput_vdevices }
    if input_alloc_ok then
      (st1, .ok v)
    else
      ({ st1 with vinput_vdevices := st.vinput_vdevices }, .error (-ENOMEM))

/-- export_store (src/vinput.c lines 235-278), the Create operation.  The
external outcomes are parameters: input_alloc_ok for input_allocate_device
inside vinput_alloc_vdevice, init_err for the provider's init op (inside
vinput_register_vdevice, src/vinput.c line 226), dev_reg_err for
device_register, input_reg_err for input_register_device.  vinput->type is
assigned after the allocation, so the head of vinput_vdevices (the node just
prepended) is updated in place.  Each failure after a successful allocation
runs vinput_destroy_vdevice; on the input_register_device path the
device_unregister call already triggers vinput_release_dev and thereby
vinput_destroy_vdevice, after which the fall-through destroys the instance a
second time (a use-after-free in C; at the value level the second erase of the
same id is a no-op). -/
def export_store (st : VState) (buf : List Char) (input_alloc_ok : Bool)
    (init_err dev_reg_err input_reg_err : Int) : VState × CResult Unit :=
  match vinput_get_device_by_type st.vinput_devices buf with
  | .error e => (st, .error e)
  | .nullDeref => (st, .nullDeref)
  | .ok device =>
    match vinput_alloc_vdevice st input_alloc_ok with
    | (st1, .error e) => (st1, .error e)
    | (st1, .nullDeref) => (st1, .nullDeref)
    | (st1, .ok v) =>
      let v' : Vinput := { v with type := some device }
      let st2 : VState :=
        { st1 with
          vinput_vdevices :=
            match st1.vinput_vdevices with
            | [] => []
            | _ :: rest => v' :: rest }
      if init_err < 0 then
        (vinput_destroy_vdevice st2 v', .error init_err)
      else if dev_reg_err < 0 then
        (vinput_destroy_vdevice st2 v', .error dev_reg_err)
      else if input_reg_err < 0 then
        (vinput_destroy_vdevice (vinput_destroy_vdevice st2 v') v', .error input_reg_err)
      else
        (st2, .ok ())

/-- Modelled from the spec: kstrtol is a kernel-library routine outside the
sources; the spec says the Destroy control operation parses the text as a
decimal integer and fails with ParseError otherwise. -/
def kstrtol (s : List Char) : Option Nat :=
  if s ≠ [] ∧ s.all (fun c => c.isDigit) then
    some (s.foldl (fun n c => n * 10 + (c.toNat - 48)) 0)
  else
    none

/-- unexport_store (src/vinput.c lines 280-306), the Destroy operation: parse
the id, resolve it with vinput_get_vdevice_by_id (NULL dereference on an empty
instance list), and on success device_unregister triggers vinput_release_dev
and thereby vinput_destroy_vdevice. -/
def unexport_store (st : VState) (buf : List Char) : VState × CResult Unit :=
  match kstrtol buf with
  | none => (st, .error (-EINVAL))
  | some id =>
    match vinput_get_vdevice_by_id st.vinput_vdevices id with
    | .nullDeref => (st, .nullDeref)
    | .error e => (st, .error e)
    | .ok v => (vinput_destroy_vdevice st v, .ok ())

/-- vinput_register (src/vinput.c lines 320-331): list_add inserts the new
device type at the head of vinput_devices. -/
def vinput_register (st : VState) (dev : VinputDevice) : VState :=
  { st with vinput_devices := dev :: st.vinput_devices }

/-- The list_for_each_safe loop of vinput_unregister (src/vinput.c lines
341-344): device_unregister on each live instance triggers vinput_release_dev
and thereby vinput_destroy_vdevice, which unlinks exactly the node the cursor
stands on while the saved next pointer keeps the walk going. -/
def destroy_all : List Vinput → VState → VState
  | [], st => st
  | v :: rest, st => destroy_all rest (vinput_destroy_vdevice st v)

/-- vinput_unregister (src/vinput.c lines 333-349): unlink the device type
under the lock, then destroy every instance currently on vinput_vdevices,
whatever provider it is bound to. -/
def vinput_unregister (st : VState) (dev : VinputDevice) : VState :=
  let st1 : VState :=
    { st with vinput_devices := st.vinput_devices.eraseP (fun d => d == dev) }
  destroy_all st1.vinput_vdevices st1

/-- The device type used by the concrete scenarios. -/
def vkbd : VinputDevice := { name := ['v', 'k', 'b', 'd'] }

/-- A second, longer-named device type for the type-lookup scenarios. -/
def vkbdpro : VinputDevice := { name := ['v', 'k', 'b', 'd', 'p', 'r', 'o'] }

/-- A third device type for the mass-teardown scenario. -/
def vmouse : VinputDevice := { name := ['v', 'm', 'o', 'u', 's', 'e'] }

/-- Fresh state right after module init with the vkbd provider registered. -/
def st0 : VState :=
  { vinput_devices := [vkbd], vinput_vdevices := [], vinput_ids := ∅ }

/-- n consecutive Creates of a vkbd instance with every external step
succeeding; none when any of them fails. -/
def createN : Nat → VState → Option VState
  | 0, st => some st
  | n + 1, st =>
    match export_store st vkbd.name true 0 0 0 with
    | (st', CResult.ok _) => createN n st'
    | _ => none

/-- The state reached by VINPUT_MINORS consecutive successful Creates from the
fresh state. -/
def st32 : VState := (createN VINPUT_MINORS st0).getD st0

/-! ## Theorems -/

/-- C4: lookup_by_id returns the live Instance bearing an id when one exists
and NotFoundError (-ENODEV) when none does, and Open reports the same error —
but on an empty Instance Registry the loop cursor stays NULL and the final
id comparison dereferences a NULL pointer instead of returning NotFoundError.
This theorem evaluates the code at the failing input (empty registry) and at
nonempty registries where the claimed behaviour does hold. -/
theorem c4_lookup_empty_registry_nullderef :
    vinput_get_vdevice_by_id [] 0 = CResult.nullDeref ∧
    vinput_open [] 0 = CResult.nullDeref ∧
    vinput_get_vdevice_by_id [{ id := 5, type := none }] 3 = CResult.error (-ENODEV) ∧
    vinput_open [{ id := 5, type := none }] 3 = CResult.error (-ENODEV) ∧
    vinput_get_vdevice_by_id [{ id := 5, type := none }] 5 =
      CResult.ok { id := 5, type := none } := by
  decide

/-- C1: a Create that fails after the id has been allocated — concretely, when
input_allocate_device fails at step 3 — does NOT roll back completely: the
Instance is removed from the registry list and only -ENOMEM is reported, but
the fail_input_dev unwind path never executes clear_bit, so id 0 stays marked
allocated and the Identifier Allocator is not returned to its pre-call state. -/
theorem c1_failed_create_leaks_id :
    export_store st0 vkbd.name false 0 0 0 =
      ({ vinput_devices := [vkbd], vinput_vdevices := [], vinput_ids := {0} },
        CResult.error (-ENOMEM)) ∧
    st0.vinput_ids = ∅ ∧
    (export_store st0 vkbd.name false 0 0 0).1.vinput_ids ≠ st0.vinput_ids := by
  decide

/-- C2: the reachable-iff-bit-allocated equivalence between the Instance
Registry and the Identifier Allocator is NOT preserved by a failed Create:
after a Create whose input-device allocation fails, bit 0 is still set in
vinput_ids while vinput_vdevices holds no instance at all. -/
theorem c2_membership_equivalence_broken :
    0 ∈ (export_store st0 vkbd.name false 0 0 0).1.vinput_ids ∧
    (export_store st0 vkbd.name false 0 0 0).1.vinput_vdevices = [] := by
  decide

/-- C9: from the fresh state, Create obtains the lowest free id 0; Destroy(0)
succeeds; Create after the Destroy reuses id 0; but the intervening second
Destroy(0) hits the empty instance list and dereferences a NULL pointer in
vinput_get_vdevice_by_id instead of returning NotFoundError. -/
theorem c9_destroy_reuse_scenario :
    (export_store st0 vkbd.name true 0 0 0).1.vinput_vdevices =
      [{ id := 0, type := some vkbd }] ∧
    (export_store st0 vkbd.name true 0 0 0).2 = CResult.ok () ∧
    (unexport_store (export_store st0 vkbd.name true 0 0 0).1 ['0']).2 = CResult.ok () ∧
    (unexport_store (export_store st0 vkbd.name true 0 0 0).1 ['0']).1.vinput_vdevices = [] ∧
    (unexport_store
      (unexport_store (export_store st0 vkbd.name true 0 0 0).1 ['0']).1 ['0']).2 =
      CResult.nullDeref ∧
    (export_store
      (unexport_store (export_store st0 vkbd.name true 0 0 0).1 ['0']).1
      vkbd.name true 0 0 0).1.vinput_vdevices = [{ id := 0, type := some vkbd }] := by
  decide

/-- Helper: strncmp against a stored name over the stored name's full length
succeeds exactly when the stored name is a prefix of the query. -/
theorem strncmp_name_eq_zero_iff (n : List Char) :
    ∀ q : List Char, strncmp q n n.length = 0 ↔ n.isPrefixOf q = true := by
  induction n with
  | nil => intro q; simp [strncmp, List.isPrefixOf]
  | cons b bs ih =>
    intro q
    cases q with
    | nil => simp [strncmp, List.isPrefixOf]
    | cons a as =>
      simp only [List.length_cons, strncmp, List.isPrefixOf]
      by_cases hab : a = b
      · subst hab
        simpa using ih as
      · have hba : ¬(b = a) := fun h => hab h.symm
        simp only [if_neg hab, beq_iff_eq]
        split_ifs <;> simp [hba]

/-- Helper: destroying, in order, every instance currently on the list leaves
the instance list empty — each vinput_destroy_vdevice unlinks exactly the node
the teardown loop stands on. -/
theorem destroy_all_vdevices_eq_nil (l : List Vinput) :
    ∀ st : VState, st.vinput_vdevices = l → (destroy_all l st).vinput_vdevices = [] := by
  induction l with
  | nil => intro st h; rw [destroy_all]; exact h
  | cons v rest ih =>
    intro st h
    rw [destroy_all]
    apply ih
    simp [vinput_destroy_vdevice, h]

/-- C5 counterexample: after registering "vkbd" and then "vkbdpro" (list_add
prepends, so "vkbdpro" is scanned first), a lookup for "vkbdpro" resolves to
the provider named "vkbdpro", not to "vkbd" as the claim states. -/
theorem c5_counterexample_lookup_finds_vkbdpro :
    vinput_get_device_by_type
      (vinput_register
        (vinput_register
          { vinput_devices := [], vinput_vdevices := [], vinput_ids := ∅ } vkbd)
        vkbdpro).vinput_devices
      vkbdpro.name = CResult.ok vkbdpro ∧
    vkbdpro ≠ vkbd := by
  decide

/-- C5 amended: lookup matches a registered provider by prefix — strncmp over
the registered name's full length succeeds exactly when the query starts with
the registered name — and the scan returns the first match in list order,
which is reverse registration order because vinput_register prepends; hence
the masking scenario arises for the opposite registration order: after
registering "vkbdpro" and then "vkbd", a lookup for "vkbdpro" resolves to the
provider named "vkbd". -/
theorem c5_type_lookup_matches_by_name_then_scan_order :
    (∀ q n : List Char, strncmp q n n.length = 0 ↔ n.isPrefixOf q = true) ∧
    vinput_get_device_by_type
      (vinput_register
        (vinput_register
          { vinput_devices := [], vinput_vdevices := [], vinput_ids := ∅ } vkbdpro)
        vkbd).vinput_devices
      vkbdpro.name = CResult.ok vkbd :=
  ⟨fun q n => strncmp_name_eq_zero_iff n q, by decide⟩

/-- C5 witness: the iff of the amended theorem evaluated at the concrete pair
of names, matching "vkbd" against the query "vkbdpro". -/
theorem c5_type_lookup_witness : vkbd.name.isPrefixOf vkbdpro.name = true :=
  (c5_type_lookup_matches_by_name_then_scan_order.1 vkbdpro.name vkbd.name).mp (by decide)

/-- C6: unregistering a provider force-destroys every currently-live Instance
in the entire registry, whatever provider each is bound to; in particular,
with three live instances of two providers, unregistering one provider
destroys all three. -/
theorem c6_unregister_destroys_all_instances :
    (∀ (st : VState) (dev : VinputDevice),
      (vinput_unregister st dev).vinput_vdevices = []) ∧
    vinput_unregister
      { vinput_devices := [vkbd, vmouse],
        vinput_vdevices :=
          [{ id := 0, type := some vkbd }, { id := 1, type := some vkbd },
            { id := 2, type := some vmouse }],
        vinput_ids := {0, 1, 2} }
      vmouse =
      { vinput_devices := [vkbd], vinput_vdevices := [], vinput_ids := ∅ } := by
  constructor
  · intro st dev
    exact destroy_all_vdevices_eq_nil _ _ rfl
  · decide

/-- C7: whenever the Identifier Allocator is full — in particular after
VINPUT_MINORS successful Creates with no Destroy — a Create whose type lookup
succeeds fails with -ENOBUFS (ResourceExhaustedError) and returns the state
completely unchanged: allocator bitmap, instance registry, and type registry. -/
theorem c7_create_fails_unchanged_when_full (st : VState) (buf : List Char)
    (d : VinputDevice) (input_alloc_ok : Bool) (init_err dev_reg_err input_reg_err : Int)
    (hfull : Finset.range VINPUT_MINORS ⊆ st.vinput_ids)
    (hdev : vinput_get_device_by_type st.vinput_devices buf = CResult.ok d) :
    export_store st buf input_alloc_ok init_err dev_reg_err input_reg_err =
      (st, CResult.error (-ENOBUFS)) := by
  have hfind : find_first_zero_bit st.vinput_ids VINPUT_MINORS = VINPUT_MINORS := by
    unfold find_first_zero_bit
    have hnone : (List.range VINPUT_MINORS).find?
        (fun i => decide (i ∉ st.vinput_ids)) = none := by
      rw [List.find?_eq_none]
      intro x hx
      simp only [decide_eq_true_eq, not_not]
      exact hfull (Finset.mem_range.mpr (List.mem_range.mp hx))
    rw [hnone]
    rfl
  unfold export_store
  rw [hdev]
  unfold vinput_alloc_vdevice
  rw [hfind]
  simp

/-- C7 witness: the allocator-full theorem applied to the concrete state
reached by VINPUT_MINORS consecutive successful Creates from the fresh state;
the first conjunct checks that those 32 Creates all succeeded. -/
theorem c7_create_fails_unchanged_witness :
    createN VINPUT_MINORS st0 = some st32 ∧
    export_store st32 vkbd.name true 0 0 0 = (st32, CResult.error (-ENOBUFS)) :=
  ⟨by decide,
    c7_create_fails_unchanged_when_full st32 vkbd.name vkbd true 0 0 0
      (by decide) (by decide)⟩

/-- C3 counterexample: with the provider having produced 0 bytes, a request
for 1 byte at offset 0 has offset ≥ produced length, yet vinput_read returns
1 byte, not 0, and the copied window [0, 1) extends past the produced bytes:
the code zeroes the count only for offset strictly greater than the produced
length, and its clamp does not engage when count + offset ≤ VINPUT_MAX_LEN. -/
theorem c3_read_counterexample :
    (vinput_read 0 1 0 true).retval = 1 ∧
    (vinput_read 0 1 0 true).copyLen = 1 ∧
    (vinput_read 0 1 0 true).copyStart + (vinput_read 0 1 0 true).copyLen > 0 := by
  decide

/-- C3 amended: for a Read with a successful copy, the code returns zero bytes
only when the offset is strictly greater than the produced length; when
offset ≤ len and count + offset exceeds VINPUT_MAX_LEN the window is clamped
to end at the produced length; otherwise the requested count is served
unclamped — the window then never passes VINPUT_MAX_LEN but may pass the
produced length. -/
theorem c3_read_clamping_amended (len count off : Int) :
    (vinput_read len count off true).retval = (vinput_read len count off true).copyLen ∧
    (vinput_read len count off true).newOffset =
      off + (vinput_read len count off true).copyLen ∧
    (vinput_read len count off true).copyStart = off ∧
    (off > len → (vinput_read len count off true).copyLen = 0) ∧
    (off ≤ len → count + off > (VINPUT_MAX_LEN : Int) →
      (vinput_read len count off true).copyLen = len - off ∧
      off + (vinput_read len count off true).copyLen ≤ len) ∧
    (off ≤ len → count + off ≤ (VINPUT_MAX_LEN : Int) →
      (vinput_read len count off true).copyLen = count ∧
      off + (vinput_read len count off true).copyLen ≤ (VINPUT_MAX_LEN : Int)) := by
  have hretval : (vinput_read len count off true).retval = read_count1 len count off := by
    simp [vinput_read]
  have hnew : (vinput_read len count off true).newOffset =
      off + read_count1 len count off := by
    simp [vinput_read]
  have hstart : (vinput_read len count off true).copyStart = off := rfl
  have hclen : (vinput_read len count off true).copyLen = read_count1 len count off := rfl
  rw [hretval, hnew, hstart, hclen]
  unfold read_count1
  split_ifs with h1 h2 <;>
    exact ⟨by omega, by omega, by omega, fun h => by omega,
      fun ha hb => by omega, fun ha hb => by omega⟩

/-- C3 amended witness: the clamping theorem at len = 2, count = 10, off = 1:
the clamp engages (10 + 1 > 8) and the window ends at the produced length. -/
theorem c3_read_clamping_witness :
    (vinput_read 2 10 1 true).retval = (vinput_read 2 10 1 true).copyLen ∧
    (vinput_read 2 10 1 true).newOffset = 1 + (vinput_read 2 10 1 true).copyLen ∧
    (vinput_read 2 10 1 true).copyStart = 1 ∧
    (vinput_read 2 10 1 true).copyLen = 2 - 1 ∧
    1 + (vinput_read 2 10 1 true).copyLen ≤ 2 :=
  ⟨(c3_read_clamping_amended 2 10 1).1,
    (c3_read_clamping_amended 2 10 1).2.1,
    (c3_read_clamping_amended 2 10 1).2.2.1,
    ((c3_read_clamping_amended 2 10 1).2.2.2.2.1 (by decide) (by decide)).1,
    ((c3_read_clamping_amended 2 10 1).2.2.2.2.1 (by decide) (by decide)).2⟩

/-- C8: a Write longer than VINPUT_MAX_LEN returns -EINVAL (TooLargeError)
without invoking the provider's send; a Write within the limit whose copy
succeeds hands send the bounded staging buffer — the user bytes padded with
zeroes to VINPUT_MAX_LEN + 1 bytes — and returns send's result verbatim. -/
theorem c8_write_bounds (data : List Nat) (copy_ok : Bool) (send_ret : Int) :
    (data.length > VINPUT_MAX_LEN →
      vinput_write data data.length copy_ok send_ret =
        { retval := -EINVAL, sendInvoked := false, sentBuf := [] }) ∧
    (data.length ≤ VINPUT_MAX_LEN → copy_ok = true →
      vinput_write data data.length copy_ok send_ret =
        { retval := send_ret, sendInvoked := true,
          sentBuf := data ++ List.replicate (VINPUT_MAX_LEN + 1 - data.length) 0 } ∧
      (vinput_write data data.length copy_ok send_ret).sentBuf.length =
        VINPUT_MAX_LEN + 1) := by
  constructor
  · intro h
    unfold vinput_write
    rw [if_pos h]
  · intro h hc
    unfold vinput_write
    rw [if_neg (by omega), if_pos hc, List.take_length]
    refine ⟨rfl, ?_⟩
    simp only [List.length_append, List.length_replicate]
    omega

/-- C8 witness: the write theorem applied to a 9-byte payload (rejected, send
not invoked) and to a 1-byte payload (send invoked with the padded buffer and
its result 3 returned). -/
theorem c8_write_witness :
    vinput_write [1, 1, 1, 1, 1, 1, 1, 1, 1] 9 true 5 =
      { retval := -EINVAL, sendInvoked := false, sentBuf := [] } ∧
    vinput_write [7] 1 true 3 =
      { retval := 3, sendInvoked := true,
        sentBuf := [7] ++ List.replicate 8 0 } :=
  ⟨(c8_write_bounds [1, 1, 1, 1, 1, 1, 1, 1, 1] true 5).1 (by decide),
    ((c8_write_bounds [7] true 3).2 (by decide) rfl).1⟩

/-- C10: vinput_read always advances the stored offset by exactly the value it
returns; in particular when copy_to_user fails the return value is -EFAULT and
the offset moves backwards by EFAULT. -/
theorem c10_offset_advances_by_retval (len count off : Int) (copy_ok : Bool) :
    (vinput_read len count off copy_ok).newOffset =
      off + (vinput_read len count off copy_ok).retval ∧
    (copy_ok = false →
      (vinput_read len count off copy_ok).retval = -EFAULT ∧
      (vinput_read len count off copy_ok).newOffset = off - EFAULT) := by
  cases copy_ok with
  | false =>
    refine ⟨rfl, fun _ => ⟨rfl, ?_⟩⟩
    show off + -EFAULT = off - EFAULT
    omega
  | true => exact ⟨rfl, fun h => nomatch h⟩

/-- C10 witness: a failed copy at offset 1 returns -EFAULT and moves the
offset backwards to 1 - EFAULT. -/
theorem c10_offset_advances_witness :
    (vinput_read 3 2 1 false).newOffset = 1 + (vinput_read 3 2 1 false).retval ∧
    (vinput_read 3 2 1 false).retval = -EFAULT ∧
    (vinput_read 3 2 1 false).newOffset = 1 - EFAULT :=
  ⟨(c10_offset_advances_by_retval 3 2 1 false).1,
    ((c10_offset_advances_by_retval 3 2 1 false).2 rfl).1,
    ((c10_offset_advances_by_retval 3 2 1 false).2 rfl).2⟩
